import Mathlib

/-!
# Verification of the nRF5340 segmented-transfer-and-offloaded-execution engine

Shallow embedding of the WASM upload/execute service (`src/services/wasm_service.c`)
and the sprite registry service (`src/services/sprite_service.c`), together with
proofs of the specified properties.

Machine integers are modelled as `Nat` with explicit `% 2^w` truncation where the
C code truncates; byte buffers are modelled as `Nat → Nat` (index to byte value);
byte sequences handed to functions are `List Nat` with `< 256` side conditions.
-/

namespace Nrf53

/-! ## Constants from `sprite_service.h` -/

def SPRITE_DATA_SIZE : Nat := 32
def SPRITE_MAX_COUNT : Nat := 256
def SPRITE_ID_INVALID : Nat := 0xFFFF

def SPRITE_STATUS_SUCCESS : Nat := 0x00
def SPRITE_STATUS_NOT_FOUND : Nat := 0x01
def SPRITE_STATUS_CRC_ERROR : Nat := 0x02
def SPRITE_STATUS_REGISTRY_FULL : Nat := 0x03

def REGISTRY_STATUS_READY : Nat := 0x00
def REGISTRY_STATUS_BUSY : Nat := 0x01
def REGISTRY_STATUS_ERROR : Nat := 0x02

def OPERATION_NONE : Nat := 0x00
def OPERATION_UPLOAD : Nat := 0x01
def OPERATION_DOWNLOAD : Nat := 0x02
def OPERATION_VERIFY : Nat := 0x03

def VERIFY_STATUS_VALID : Nat := 0x00
def VERIFY_STATUS_INVALID : Nat := 0x01
def VERIFY_STATUS_NOT_FOUND : Nat := 0x02

/-! ## CRC16, from `sprite_service_calculate_crc16` (sprite_service.c:42-60)

The C loop body is, per input byte: `crc ^= (uint16_t)(data[i] << 8);` followed by
eight iterations of `if (crc & 0x8000) crc = (crc << 1) ^ 0x1021; else crc <<= 1;`
on a `uint16_t` register (assignment truncates mod 2^16). -/

def crc16_update_bit (crc : Nat) : Nat :=
  if crc &&& 0x8000 ≠ 0 then ((crc <<< 1) ^^^ 0x1021) % 65536
  else (crc <<< 1) % 65536

def crc16_update_byte (crc b : Nat) : Nat :=
  crc16_update_bit^[8] ((crc ^^^ ((b <<< 8) % 65536)) % 65536)

def sprite_service_calculate_crc16 (data : List Nat) : Nat :=
  data.foldl crc16_update_byte 0xFFFF

/-! ## Reference CRC-16/CCITT-FALSE, stated from the specification's words
(spec §4.1): register initialized to `0xFFFF`; each input byte XORed into the
high 8 bits of the register; then 8 iterations of: shift left by one, XORing
with polynomial `0x1021` when the vacated top bit was 1; no final XOR. -/

def crc16_spec_step (r : Nat) : Nat :=
  if r.testBit 15 then ((r * 2) % 65536) ^^^ 0x1021 else (r * 2) % 65536

def crc16_spec_byte (r b : Nat) : Nat :=
  crc16_spec_step^[8] (r ^^^ b * 256)

def crc16_spec (data : List Nat) : Nat :=
  data.foldl crc16_spec_byte 0xFFFF

/-! ### CRC lemmas -/

theorem xor_mod_two_pow (a b k : Nat) :
    (a ^^^ b) % 2 ^ k = (a % 2 ^ k) ^^^ (b % 2 ^ k) := by
  apply Nat.eq_of_testBit_eq
  intro i
  simp only [Nat.testBit_mod_two_pow, Nat.testBit_xor]
  by_cases h : i < k <;> simp [h]

theorem crc16_update_bit_lt (c : Nat) : crc16_update_bit c < 65536 := by
  unfold crc16_update_bit
  split <;> exact Nat.mod_lt _ (by norm_num)

theorem crc16_update_bit_iter_lt (n : Nat) (c : Nat) (hc : c < 65536) :
    crc16_update_bit^[n] c < 65536 := by
  induction n generalizing c with
  | zero => simpa
  | succ n ih =>
    rw [Function.iterate_succ_apply]
    exact ih _ (crc16_update_bit_lt c)

theorem crc16_update_byte_lt (c b : Nat) : crc16_update_byte c b < 65536 := by
  unfold crc16_update_byte
  rw [Function.iterate_succ_apply']
  exact crc16_update_bit_lt _

/-- The C bit step and the spec's bit step agree. -/
theorem crc16_update_bit_eq_spec (c : Nat) :
    crc16_update_bit c = crc16_spec_step c := by
  unfold crc16_update_bit crc16_spec_step
  have hcond : (c &&& 0x8000 ≠ 0) ↔ c.testBit 15 = true := by
    rw [show (0x8000 : Nat) = 2 ^ 15 by norm_num, Nat.and_two_pow]
    cases h : c.testBit 15 <;> simp
  have hsh : c <<< 1 = c * 2 := by
    rw [Nat.shiftLeft_eq]
  by_cases h : c.testBit 15
  · rw [if_pos (hcond.mpr h), if_pos h, hsh]
    have hx := xor_mod_two_pow (c * 2) 0x1021 16
    norm_num at hx
    exact hx
  · rw [if_neg (fun hh => h (hcond.mp hh)), if_neg h, hsh]

theorem crc16_bit_iter_eq_spec (n c : Nat) :
    crc16_update_bit^[n] c = crc16_spec_step^[n] c := by
  induction n generalizing c with
  | zero => rfl
  | succ n ih =>
    rw [Function.iterate_succ_apply, Function.iterate_succ_apply,
        crc16_update_bit_eq_spec c, ih]

/-- The byte fed into the register: the C `crc ^= (uint16_t)(data[i] << 8)` agrees
with the spec's "XOR the byte into the high 8 bits". -/
theorem crc16_byte_arg (c b : Nat) (hc : c < 65536) (hb : b < 256) :
    (c ^^^ ((b <<< 8) % 65536)) % 65536 = c ^^^ b * 256 := by
  have hb8 : b <<< 8 = b * 256 := by rw [Nat.shiftLeft_eq]
  have hblt : b * 256 < 65536 := by omega
  have hxlt : c ^^^ b * 256 < 65536 :=
    Nat.xor_lt_two_pow (n := 16) (by simpa using hc) (by simpa using hblt)
  rw [hb8, Nat.mod_eq_of_lt hblt, Nat.mod_eq_of_lt hxlt]

theorem crc16_update_byte_eq_spec (c b : Nat) (hc : c < 65536) (hb : b < 256) :
    crc16_update_byte c b = crc16_spec_byte c b := by
  unfold crc16_update_byte crc16_spec_byte
  rw [crc16_byte_arg c b hc hb]
  exact crc16_bit_iter_eq_spec 8 _

theorem crc16_foldl_eq_spec (l : List Nat) : ∀ (s : Nat), s < 65536 →
    (∀ b ∈ l, b < 256) →
    l.foldl crc16_update_byte s = l.foldl crc16_spec_byte s := by
  induction l with
  | nil => intro s _ _; rfl
  | cons a t ih =>
    intro s hs hl
    simp only [List.foldl_cons]
    rw [ih _ (crc16_update_byte_lt s a) (fun b hb => hl b (List.mem_cons_of_mem _ hb)),
        crc16_update_byte_eq_spec s a hs (hl a (List.mem_cons_self a t))]

/-! ### Injectivity of the CRC16 in any single byte -/

/-- Left inverse of one CRC bit step, on register values `< 2^16`. -/
def crc16_bit_unstep (t : Nat) : Nat :=
  if t % 2 = 1 then 32768 + (t ^^^ 0x1021) / 2 else t / 2

theorem and_hi_bit_ne_iff (c : Nat) : (c &&& 0x8000 ≠ 0) ↔ c.testBit 15 = true := by
  rw [show (0x8000 : Nat) = 2 ^ 15 by norm_num, Nat.and_two_pow]
  cases h : c.testBit 15 <;> simp

theorem testBit15_iff (c : Nat) (hc : c < 65536) : c.testBit 15 = true ↔ 32768 ≤ c := by
  rw [Nat.testBit_to_div_mod]
  simp only [decide_eq_true_eq]
  omega

theorem crc16_bit_unstep_update (c : Nat) (hc : c < 65536) :
    crc16_bit_unstep (crc16_update_bit c) = c := by
  have hsh : c <<< 1 = c * 2 := by rw [Nat.shiftLeft_eq]
  unfold crc16_update_bit crc16_bit_unstep
  by_cases h : 32768 ≤ c
  · rw [if_pos ((and_hi_bit_ne_iff c).mpr ((testBit15_iff c hc).mpr h)), hsh]
    have hmod : (c * 2) % 65536 = 2 * (c - 32768) := by omega
    have hx : ((c * 2) ^^^ 0x1021) % 65536 = (2 * (c - 32768)) ^^^ 0x1021 := by
      have h16 := xor_mod_two_pow (c * 2) 0x1021 16
      norm_num at h16
      rw [h16, hmod]
    rw [hx]
    have hpar : ((2 * (c - 32768)) ^^^ 0x1021) % 2 = 1 := by
      have h1 := xor_mod_two_pow (2 * (c - 32768)) 0x1021 1
      norm_num at h1 ⊢
      omega
    rw [if_pos hpar, Nat.xor_cancel_right]
    omega
  · rw [if_neg (fun hh => absurd ((testBit15_iff c hc).mp ((and_hi_bit_ne_iff c).mp hh)) (by omega)),
        hsh]
    have hmod : (c * 2) % 65536 = c * 2 := Nat.mod_eq_of_lt (by omega)
    rw [hmod, if_neg (by omega)]
    omega

theorem crc16_bit_iter_inj (n : Nat) : ∀ (c1 c2 : Nat), c1 < 65536 → c2 < 65536 →
    crc16_update_bit^[n] c1 = crc16_update_bit^[n] c2 → c1 = c2 := by
  induction n with
  | zero => intro c1 c2 _ _ he; simpa using he
  | succ n ih =>
    intro c1 c2 h1 h2 he
    rw [Function.iterate_succ_apply, Function.iterate_succ_apply] at he
    have hbit := ih _ _ (crc16_update_bit_lt c1) (crc16_update_bit_lt c2) he
    calc c1 = crc16_bit_unstep (crc16_update_bit c1) := (crc16_bit_unstep_update c1 h1).symm
      _ = crc16_bit_unstep (crc16_update_bit c2) := by rw [hbit]
      _ = c2 := crc16_bit_unstep_update c2 h2

/-- One CRC byte step is injective in the incoming register value. -/
theorem crc16_update_byte_state_inj (c1 c2 b : Nat) (h1 : c1 < 65536) (h2 : c2 < 65536)
    (he : crc16_update_byte c1 b = crc16_update_byte c2 b) : c1 = c2 := by
  unfold crc16_update_byte at he
  have e := crc16_bit_iter_inj 8 _ _ (Nat.mod_lt _ (by norm_num)) (Nat.mod_lt _ (by norm_num)) he
  have hm : (b <<< 8) % 65536 < 65536 := Nat.mod_lt _ (by norm_num)
  have hx1 : c1 ^^^ ((b <<< 8) % 65536) < 65536 :=
    Nat.xor_lt_two_pow (n := 16) (by simpa using h1) (by simpa using hm)
  have hx2 : c2 ^^^ ((b <<< 8) % 65536) < 65536 :=
    Nat.xor_lt_two_pow (n := 16) (by simpa using h2) (by simpa using hm)
  rw [Nat.mod_eq_of_lt hx1, Nat.mod_eq_of_lt hx2] at e
  calc c1 = c1 ^^^ ((b <<< 8) % 65536) ^^^ ((b <<< 8) % 65536) := by
        rw [Nat.xor_assoc, Nat.xor_self, Nat.xor_zero]
    _ = c2 ^^^ ((b <<< 8) % 65536) ^^^ ((b <<< 8) % 65536) := by rw [e]
    _ = c2 := by rw [Nat.xor_assoc, Nat.xor_self, Nat.xor_zero]

/-- One CRC byte step is injective in the processed byte. -/
theorem crc16_update_byte_byte_inj (c b1 b2 : Nat) (hc : c < 65536)
    (hb1 : b1 < 256) (hb2 : b2 < 256)
    (he : crc16_update_byte c b1 = crc16_update_byte c b2) : b1 = b2 := by
  unfold crc16_update_byte at he
  have e := crc16_bit_iter_inj 8 _ _ (Nat.mod_lt _ (by norm_num)) (Nat.mod_lt _ (by norm_num)) he
  rw [crc16_byte_arg c b1 hc hb1, crc16_byte_arg c b2 hc hb2] at e
  have hm : b1 * 256 = b2 * 256 := by
    calc b1 * 256 = c ^^^ (c ^^^ b1 * 256) := by
          rw [← Nat.xor_assoc, Nat.xor_self, Nat.zero_xor]
      _ = c ^^^ (c ^^^ b2 * 256) := by rw [e]
      _ = b2 * 256 := by rw [← Nat.xor_assoc, Nat.xor_self, Nat.zero_xor]
  omega

theorem crc16_foldl_state_inj (l : List Nat) : ∀ (s1 s2 : Nat), s1 < 65536 → s2 < 65536 →
    (∀ b ∈ l, b < 256) →
    l.foldl crc16_update_byte s1 = l.foldl crc16_update_byte s2 → s1 = s2 := by
  induction l with
  | nil => intro s1 s2 _ _ _ he; simpa using he
  | cons a t ih =>
    intro s1 s2 h1 h2 hl he
    simp only [List.foldl_cons] at he
    have hstep := ih _ _ (crc16_update_byte_lt s1 a) (crc16_update_byte_lt s2 a)
      (fun b hb => hl b (List.mem_cons_of_mem _ hb)) he
    exact crc16_update_byte_state_inj s1 s2 a h1 h2 hstep

theorem crc16_foldl_set_ne (l : List Nat) : ∀ (i v s : Nat), s < 65536 →
    (∀ b ∈ l, b < 256) → v < 256 → i < l.length → v ≠ l.getD i 0 →
    (l.set i v).foldl crc16_update_byte s ≠ l.foldl crc16_update_byte s := by
  induction l with
  | nil => intro i v s _ _ _ hi _; simp at hi
  | cons a t ih =>
    intro i v s hs hl hv hi hne
    cases i with
    | zero =>
      simp only [List.set_cons_zero, List.foldl_cons]
      intro he
      have hstates := crc16_foldl_state_inj t _ _
        (crc16_update_byte_lt s v) (crc16_update_byte_lt s a)
        (fun b hb => hl b (List.mem_cons_of_mem _ hb)) he
      exact hne (by simpa using
        crc16_update_byte_byte_inj s v a hs hv (hl a (List.mem_cons_self a t)) hstates)
    | succ k =>
      simp only [List.set_cons_succ, List.foldl_cons]
      exact ih k v _ (crc16_update_byte_lt s a)
        (fun b hb => hl b (List.mem_cons_of_mem _ hb)) hv
        (by simpa using hi) (by simpa using hne)

/-- Changing any single byte of a byte sequence changes its CRC16. -/
theorem crc16_set_ne (l : List Nat) (i v : Nat) (hl : ∀ b ∈ l, b < 256) (hv : v < 256)
    (hi : i < l.length) (hne : v ≠ l.getD i 0) :
    sprite_service_calculate_crc16 (l.set i v) ≠ sprite_service_calculate_crc16 l :=
  crc16_foldl_set_ne l i v 0xFFFF (by norm_num) hl hv hi hne

/-! ## Sprite registry, from `sprite_service.c`

The registry is a fixed array `sprite_slot_t sprite_registry[SPRITE_MAX_COUNT]`
together with the static counters; we model the array as a `List SpriteSlot`
(of length 256 in the initial state) and the counters as fields of
`SpriteState`. -/

structure SpriteSlot where
  sprite_id : Nat
  bitmap_data : List Nat
  crc16 : Nat
  is_valid : Bool
deriving DecidableEq

structure SpriteState where
  registry : List SpriteSlot
  sprite_count : Nat
  crc_error_count : Nat
  registry_status : Nat
  last_operation : Nat
  last_sprite_id : Nat
deriving DecidableEq

/-- `find_sprite_slot` (sprite_service.c:71-79): first slot that is valid and has the
given id. We return the index together with the slot (the C code returns a pointer,
through which the caller both reads and writes). -/
def find_sprite_slot : List SpriteSlot → Nat → Option (Nat × SpriteSlot)
  | [], _ => none
  | s :: rest, id =>
    if s.is_valid ∧ s.sprite_id = id then some (0, s)
    else (find_sprite_slot rest id).map (fun p => (p.1 + 1, p.2))

/-- `find_free_slot` (sprite_service.c:85-93): index of the first slot with
`is_valid = false`. -/
def find_free_slot : List SpriteSlot → Option Nat
  | [] => none
  | s :: rest =>
    if s.is_valid then (find_free_slot rest).map (· + 1) else some 0

/-- `store_sprite` (sprite_service.c:102-141). Verifies the declared CRC against the
CRC recomputed over the payload, then updates the existing entry with the same id or
inserts into the first free slot. The C code memcpys exactly `SPRITE_DATA_SIZE = 32`
bytes out of the upload packet's fixed 32-byte field; callers pass `bitmap_data` of
length 32. -/
def store_sprite (st : SpriteState) (sprite_id : Nat) (bitmap_data : List Nat)
    (crc16 : Nat) : SpriteState × Nat :=
  let calculated_crc := sprite_service_calculate_crc16 bitmap_data
  if calculated_crc ≠ crc16 then
    ({ st with crc_error_count := st.crc_error_count + 1 }, SPRITE_STATUS_CRC_ERROR)
  else
    let slot : SpriteSlot :=
      { sprite_id := sprite_id, bitmap_data := bitmap_data, crc16 := crc16,
        is_valid := true }
    match find_sprite_slot st.registry sprite_id with
    | some (j, _) =>
      ({ st with registry := st.registry.set j slot, last_sprite_id := sprite_id },
       SPRITE_STATUS_SUCCESS)
    | none =>
      match find_free_slot st.registry with
      | none => (st, SPRITE_STATUS_REGISTRY_FULL)
      | some j =>
        ({ st with registry := st.registry.set j slot,
                   sprite_count := st.sprite_count + 1,
                   last_sprite_id := sprite_id },
         SPRITE_STATUS_SUCCESS)

/-- `sprite_verify_request_handler` (sprite_service.c:254-263): records the id to be
verified; the verification itself happens on the subsequent response read. -/
def sprite_verify_request_handler (st : SpriteState) (sprite_id : Nat) : SpriteState :=
  { st with last_operation := OPERATION_VERIFY, last_sprite_id := sprite_id }

structure SpriteVerifyResponse where
  sprite_id : Nat
  stored_crc16 : Nat
  calculated_crc16 : Nat
  verification_status : Nat
  reserved : Nat
deriving DecidableEq

/-- `sprite_verify_response_handler` (sprite_service.c:268-301): recomputes the CRC
over the stored payload of the slot holding `last_sprite_id` and compares with the
stored CRC. -/
def sprite_verify_response_handler (st : SpriteState) : SpriteVerifyResponse :=
  match find_sprite_slot st.registry st.last_sprite_id with
  | some (_, slot) =>
    let calculated_crc := sprite_service_calculate_crc16 slot.bitmap_data
    { sprite_id := st.last_sprite_id, stored_crc16 := slot.crc16,
      calculated_crc16 := calculated_crc,
      verification_status :=
        if calculated_crc = slot.crc16 then VERIFY_STATUS_VALID
        else VERIFY_STATUS_INVALID,
      reserved := 0 }
  | none =>
    { sprite_id := st.last_sprite_id, stored_crc16 := 0, calculated_crc16 := 0,
      verification_status := VERIFY_STATUS_NOT_FOUND, reserved := 0 }

/-- The claim's corruption premise: flip byte `i` of the stored payload of the slot
holding `id` to the value `v` (in-place corruption of the registry storage). -/
def corrupt_sprite (st : SpriteState) (id i v : Nat) : SpriteState :=
  match find_sprite_slot st.registry id with
  | some (j, s) =>
    { st with registry := st.registry.set j { s with bitmap_data := s.bitmap_data.set i v } }
  | none => st

/-- The post-`sprite_service_init` state (sprite_service.c:366-393): 256 zeroed,
invalid slots. -/
def initSpriteState : SpriteState :=
  { registry := List.replicate SPRITE_MAX_COUNT
      { sprite_id := 0, bitmap_data := List.replicate SPRITE_DATA_SIZE 0,
        crc16 := 0, is_valid := false },
    sprite_count := 0, crc_error_count := 0,
    registry_status := REGISTRY_STATUS_READY,
    last_operation := OPERATION_NONE,
    last_sprite_id := SPRITE_ID_INVALID }

/-! ### Registry find/set lemmas -/

theorem find_free_slot_lt_length (l : List SpriteSlot) (j : Nat)
    (h : find_free_slot l = some j) : j < l.length := by
  induction l generalizing j with
  | nil => simp [find_free_slot] at h
  | cons a t ih =>
    unfold find_free_slot at h
    split at h
    · rcases Option.map_eq_some'.mp h with ⟨k, hk, rfl⟩
      simpa using ih k hk
    · simp only [Option.some.injEq] at h
      simp only [List.length_cons]
      omega

theorem find_sprite_slot_set_found (l : List SpriteSlot) (id j : Nat) (s s' : SpriteSlot)
    (hfind : find_sprite_slot l id = some (j, s))
    (hmatch : s'.is_valid ∧ s'.sprite_id = id) :
    find_sprite_slot (l.set j s') id = some (j, s') := by
  induction l generalizing j s with
  | nil => simp [find_sprite_slot] at hfind
  | cons a t ih =>
    unfold find_sprite_slot at hfind
    split at hfind
    · -- head matches: j = 0
      have hj : j = 0 := (congrArg Prod.fst (Option.some.inj hfind)).symm
      subst hj
      simp only [List.set_cons_zero]
      unfold find_sprite_slot
      rw [if_pos hmatch]
    · -- head does not match: j = k + 1
      rcases Option.map_eq_some'.mp hfind with ⟨⟨k, sk⟩, hk, heq⟩
      have hj : j = k + 1 := (congrArg Prod.fst heq).symm
      subst hj
      simp only [List.set_cons_succ]
      unfold find_sprite_slot
      split
      · rename_i hcontra
        exact absurd hcontra (by assumption)
      · rw [ih k sk hk]
        rfl

theorem find_sprite_slot_set_none (l : List SpriteSlot) (id j : Nat) (s' : SpriteSlot)
    (hfind : find_sprite_slot l id = none) (hj : j < l.length)
    (hmatch : s'.is_valid ∧ s'.sprite_id = id) :
    find_sprite_slot (l.set j s') id = some (j, s') := by
  induction l generalizing j with
  | nil => simp at hj
  | cons a t ih =>
    unfold find_sprite_slot at hfind
    split at hfind
    · exact absurd hfind (by simp)
    · have ht : find_sprite_slot t id = none := by
        rcases Option.map_eq_none'.mp hfind with h
        exact h
      cases j with
      | zero =>
        simp only [List.set_cons_zero]
        unfold find_sprite_slot
        rw [if_pos hmatch]
      | succ k =>
        simp only [List.set_cons_succ]
        unfold find_sprite_slot
        split
        · rename_i hcontra
          exact absurd hcontra (by assumption)
        · rw [ih k ht (by simpa using hj)]
          rfl

/-- Successful store: with a matching declared CRC and an available slot, the store
reports success and the stored entry is the one `find_sprite_slot` finds afterwards. -/
theorem store_sprite_success_find (st : SpriteState) (id : Nat) (data : List Nat)
    (havail : find_sprite_slot st.registry id ≠ none ∨ find_free_slot st.registry ≠ none) :
    (store_sprite st id data (sprite_service_calculate_crc16 data)).2
      = SPRITE_STATUS_SUCCESS ∧
    ∃ j, (store_sprite st id data (sprite_service_calculate_crc16 data)).1.registry
           = st.registry.set j
             { sprite_id := id, bitmap_data := data,
               crc16 := sprite_service_calculate_crc16 data, is_valid := true } ∧
         find_sprite_slot
           (store_sprite st id data (sprite_service_calculate_crc16 data)).1.registry id
           = some (j, { sprite_id := id, bitmap_data := data,
                        crc16 := sprite_service_calculate_crc16 data, is_valid := true }) := by
  unfold store_sprite
  simp only [ne_eq, not_true_eq_false, if_false]
  rcases hfind : find_sprite_slot st.registry id with _ | ⟨j, s⟩
  · rcases hfree : find_free_slot st.registry with _ | j
    · rcases havail with h | h
      · exact absurd hfind h
      · exact absurd hfree h
    · simp only [hfind, hfree]
      refine ⟨trivial, j, rfl, ?_⟩
      exact find_sprite_slot_set_none st.registry id j _ hfind
        (find_free_slot_lt_length st.registry j hfree) (by simp)
  · simp only [hfind]
    refine ⟨trivial, j, rfl, ?_⟩
    exact find_sprite_slot_set_found st.registry id j s _ hfind (by simp)

/-- C5: storing a payload with declared CRC equal to its recomputed CRC succeeds,
a subsequent verify of that id yields `Valid`, and if one byte of the stored payload
is then changed to a different value, verify yields `Invalid`. -/
theorem sprite_store_verify_roundtrip (st : SpriteState) (id : Nat) (data : List Nat)
    (i v : Nat)
    (hlen : data.length = SPRITE_DATA_SIZE)
    (hbytes : ∀ b ∈ data, b < 256)
    (hi : i < SPRITE_DATA_SIZE) (hv : v < 256) (hne : v ≠ data.getD i 0)
    (havail : find_sprite_slot st.registry id ≠ none ∨ find_free_slot st.registry ≠ none) :
    (store_sprite st id data (sprite_service_calculate_crc16 data)).2
      = SPRITE_STATUS_SUCCESS ∧
    (sprite_verify_response_handler (sprite_verify_request_handler
        (store_sprite st id data (sprite_service_calculate_crc16 data)).1 id)
      ).verification_status = VERIFY_STATUS_VALID ∧
    (sprite_verify_response_handler (sprite_verify_request_handler
        (corrupt_sprite (store_sprite st id data (sprite_service_calculate_crc16 data)).1
          id i v) id)
      ).verification_status = VERIFY_STATUS_INVALID := by
  obtain ⟨hsucc, j, hreg, hfind1⟩ := store_sprite_success_find st id data havail
  refine ⟨hsucc, ?_, ?_⟩
  · simp only [sprite_verify_request_handler, sprite_verify_response_handler]
    simp only [hfind1]
    simp
  · unfold corrupt_sprite
    simp only [hfind1]
    have hfind2 := find_sprite_slot_set_found
      (store_sprite st id data (sprite_service_calculate_crc16 data)).1.registry id j
      { sprite_id := id, bitmap_data := data,
        crc16 := sprite_service_calculate_crc16 data, is_valid := true }
      { sprite_id := id, bitmap_data := data.set i v,
        crc16 := sprite_service_calculate_crc16 data, is_valid := true }
      hfind1 (by simp)
    simp only [sprite_verify_request_handler, sprite_verify_response_handler]
    simp only [hfind2]
    rw [if_neg]
    exact crc16_set_ne data i v hbytes hv (by omega) hne

/-- C10: a store whose declared CRC disagrees with the CRC recomputed over the
payload is rejected with `SPRITE_STATUS_CRC_ERROR`; the registry slots, the sprite
count, and `last_sprite_id` are unchanged, and only `crc_error_count` increases by
exactly 1. -/
theorem store_sprite_crc_mismatch (st : SpriteState) (id : Nat) (data : List Nat)
    (crc : Nat) (hne : sprite_service_calculate_crc16 data ≠ crc) :
    store_sprite st id data crc =
      ({ st with crc_error_count := st.crc_error_count + 1 }, SPRITE_STATUS_CRC_ERROR) := by
  unfold store_sprite
  rw [if_pos hne]

set_option maxRecDepth 10000 in
/-- Witness for `sprite_store_verify_roundtrip` at a concrete registry and payload. -/
theorem sprite_store_verify_roundtrip_witness :
    (store_sprite initSpriteState 7 (List.replicate 32 0)
        (sprite_service_calculate_crc16 (List.replicate 32 0))).2
      = SPRITE_STATUS_SUCCESS ∧
    (sprite_verify_response_handler (sprite_verify_request_handler
        (store_sprite initSpriteState 7 (List.replicate 32 0)
          (sprite_service_calculate_crc16 (List.replicate 32 0))).1 7)
      ).verification_status = VERIFY_STATUS_VALID ∧
    (sprite_verify_response_handler (sprite_verify_request_handler
        (corrupt_sprite (store_sprite initSpriteState 7 (List.replicate 32 0)
          (sprite_service_calculate_crc16 (List.replicate 32 0))).1 7 0 1) 7)
      ).verification_status = VERIFY_STATUS_INVALID :=
  sprite_store_verify_roundtrip initSpriteState 7 (List.replicate 32 0) 0 1
    (by decide) (by decide) (by decide) (by decide) (by decide) (Or.inr (by decide))

set_option maxRecDepth 10000 in
/-- Witness for `store_sprite_crc_mismatch` at a concrete mismatching CRC. -/
theorem store_sprite_crc_mismatch_witness :
    store_sprite initSpriteState 3 (List.replicate 32 0) 0 =
      ({ initSpriteState with crc_error_count := 1 }, SPRITE_STATUS_CRC_ERROR) :=
  store_sprite_crc_mismatch initSpriteState 3 (List.replicate 32 0) 0 (by decide)

/-- C3: for every byte sequence, the implementation's CRC16 equals the reference
CRC-16/CCITT-FALSE algorithm described by the specification. -/
theorem sprite_crc16_eq_reference (data : List Nat) (hbytes : ∀ b ∈ data, b < 256) :
    sprite_service_calculate_crc16 data = crc16_spec data :=
  crc16_foldl_eq_spec data 0xFFFF (by norm_num) hbytes

set_option maxRecDepth 10000 in
/-- Witness for `sprite_crc16_eq_reference` on the standard check input
"123456789" (whose CRC-16/CCITT-FALSE value is 0x29B1). -/
theorem sprite_crc16_eq_reference_witness :
    sprite_service_calculate_crc16 [0x31, 0x32, 0x33, 0x34, 0x35, 0x36, 0x37, 0x38, 0x39]
      = crc16_spec [0x31, 0x32, 0x33, 0x34, 0x35, 0x36, 0x37, 0x38, 0x39] ∧
    sprite_service_calculate_crc16 [0x31, 0x32, 0x33, 0x34, 0x35, 0x36, 0x37, 0x38, 0x39]
      = 0x29B1 :=
  ⟨sprite_crc16_eq_reference _ (by decide), by decide⟩

/-! ## WASM service, from `wasm_service.c`

Constants from `wasm_service.h`. -/

def WASM_CODE_BUFFER_SIZE : Nat := 32 * 1024
def WASM_FUNCTION_NAME_SIZE : Nat := 32

def WASM_STATUS_IDLE : Nat := 0x00
def WASM_STATUS_RECEIVING : Nat := 0x01
def WASM_STATUS_RECEIVED : Nat := 0x02
def WASM_STATUS_LOADED : Nat := 0x03
def WASM_STATUS_EXECUTING : Nat := 0x04
def WASM_STATUS_COMPLETE : Nat := 0x05
def WASM_STATUS_ERROR : Nat := 0x06

def WASM_ERROR_NONE : Nat := 0x00
def WASM_ERROR_BUFFER_OVERFLOW : Nat := 0x01
def WASM_ERROR_INVALID_MAGIC : Nat := 0x02
def WASM_ERROR_LOAD_FAILED : Nat := 0x03
def WASM_ERROR_COMPILE_FAILED : Nat := 0x04
def WASM_ERROR_FUNCTION_NOT_FOUND : Nat := 0x05
def WASM_ERROR_EXECUTION_FAILED : Nat := 0x06
def WASM_ERROR_INVALID_PARAMS : Nat := 0x07

/-- `WASM_ERROR_PARSE_FAILED` is referenced at wasm_service.c:288 but has no
definition in the repository's headers; we give it the next unused code value.
No property proved here depends on its value. -/
def WASM_ERROR_PARSE_FAILED : Nat := 0x08

def WASM_CMD_START_UPLOAD : Nat := 0x01
def WASM_CMD_CONTINUE_UPLOAD : Nat := 0x02
def WASM_CMD_END_UPLOAD : Nat := 0x03
def WASM_CMD_RESET : Nat := 0x04

def WASM_MSGQ_MAX_MSGS : Nat := 4

/-- `wasm_msg_type_t` (wasm_service.c:60-64). -/
inductive WasmMsgType where
  | loadModule
  | executeFunction
  | reset
deriving DecidableEq

/-- `wasm_work_msg_t` (wasm_service.c:67-77). The C union's `execute` payload is
meaningful only for `executeFunction` messages. -/
structure WasmWorkMsg where
  type : WasmMsgType
  function_name : List Nat
  arg_count : Nat
  args : List Int
deriving DecidableEq

/-- `k_msgq_put(&wasm_work_queue, msg, K_NO_WAIT)`: the work queue is a bounded
FIFO of capacity `WASM_MSGQ_MAX_MSGS = 4` (wasm_service.c:80-83); a put on a full
queue fails immediately (without waiting) with a nonzero error return. -/
def k_msgq_put (q : List WasmWorkMsg) (m : WasmWorkMsg) : List WasmWorkMsg × Int :=
  if q.length < WASM_MSGQ_MAX_MSGS then (q ++ [m], 0) else (q, -1)

/-- `k_msgq_get`: removes the oldest message, `none` when the queue is empty
(the worker blocks in that case; blocking is outside this model). -/
def k_msgq_get (q : List WasmWorkMsg) : Option (WasmWorkMsg × List WasmWorkMsg) :=
  match q with
  | [] => none
  | m :: rest => some (m, rest)

/-- `wasm_result_packet_t` (wasm_service.h). -/
structure WasmResultPacket where
  status : Nat
  error_code : Nat
  return_value : Int
  execution_time_us : Nat
  result_data : List Nat
deriving DecidableEq

/-- The all-zero result packet (`memset(&last_result, 0, sizeof(last_result))`). -/
def zeroResult : WasmResultPacket :=
  { status := 0, error_code := 0, return_value := 0, execution_time_us := 0,
    result_data := List.replicate 32 0 }

/-- The static state of `wasm_service.c`: upload buffer and counters, service
status, WASM3 handles (modelled as presence flags), last result slot, and the
work queue. The buffer is a function from byte index to byte value. -/
structure WasmState where
  code_buffer : Nat → Nat
  code_size : Nat
  bytes_received : Nat
  total_expected : Nat
  upload_sequence : Nat
  status : Nat
  error_code : Nat
  last_result : WasmResultPacket
  last_result_valid : Bool
  env_present : Bool
  runtime_present : Bool
  module_present : Bool
  runtime_initialized : Bool
  work_queue : List WasmWorkMsg

/-- The state after boot / `wasm_service_init` (static zero-initialization plus
`reset_upload_state`). -/
def initWasmState : WasmState :=
  { code_buffer := fun _ => 0, code_size := 0, bytes_received := 0,
    total_expected := 0, upload_sequence := 0,
    status := WASM_STATUS_IDLE, error_code := WASM_ERROR_NONE,
    last_result := zeroResult, last_result_valid := false,
    env_present := false, runtime_present := false, module_present := false,
    runtime_initialized := false, work_queue := [] }

/-- `reset_upload_state` (wasm_service.c:472-483). -/
def reset_upload_state (s : WasmState) : WasmState :=
  { s with code_size := 0, bytes_received := 0, total_expected := 0,
           upload_sequence := 0, status := WASM_STATUS_IDLE,
           error_code := WASM_ERROR_NONE, last_result_valid := false,
           code_buffer := fun _ => 0, last_result := zeroResult }

/-- `reset_wasm_service_internal` (wasm_service.c:419-448): resets the upload
state, frees the WASM3 module/runtime/environment in that order, and returns the
service to `Idle` with no error. -/
def reset_wasm_service_internal (s : WasmState) : WasmState :=
  let s1 := reset_upload_state s
  { s1 with module_present := false, runtime_present := false, env_present := false,
            runtime_initialized := false, status := WASM_STATUS_IDLE,
            error_code := WASM_ERROR_NONE, last_result_valid := false }

/-- Outcomes of the external WASM3 runtime calls made by `ensure_wasm_runtime` and
`load_wasm_module`; the runtime is an opaque collaborator, so each fallible call's
result is an input of the model. -/
structure M3LoadOracle where
  env_ok : Bool
  runtime_ok : Bool
  parse_ok : Bool
  load_ok : Bool
  compile_ok : Bool
deriving DecidableEq

/-- `ensure_wasm_runtime` (wasm_service.c:201-237). -/
def ensure_wasm_runtime (s : WasmState) (o : M3LoadOracle) : WasmState × Int :=
  if s.runtime_initialized then (s, 0)
  else if o.env_ok = false then
    ({ s with env_present := false, error_code := WASM_ERROR_LOAD_FAILED }, -1)
  else if o.runtime_ok = false then
    ({ s with env_present := false, error_code := WASM_ERROR_LOAD_FAILED }, -1)
  else
    ({ s with env_present := true, runtime_present := true,
              runtime_initialized := true }, 0)

/-- `validate_wasm_magic` (wasm_service.c:186-194): size at least 4 and leading
bytes `00 61 73 6d`. -/
def validate_wasm_magic (data : Nat → Nat) (size : Nat) : Bool :=
  if size < 4 then false
  else data 0 == 0x00 && data 1 == 0x61 && data 2 == 0x73 && data 3 == 0x6d

/-- `load_wasm_module` (wasm_service.c:242-314). -/
def load_wasm_module (s : WasmState) (o : M3LoadOracle) : WasmState × Int :=
  if s.code_size = 0 then
    ({ s with error_code := WASM_ERROR_INVALID_PARAMS }, -1)
  else
    let er := ensure_wasm_runtime s o
    if er.2 ≠ 0 then er
    else
      let s1 := er.1
      if validate_wasm_magic s1.code_buffer s1.code_size = false then
        ({ s1 with error_code := WASM_ERROR_INVALID_MAGIC }, -1)
      else if s1.env_present = false then (s1, -1)
      else if o.parse_ok = false then
        ({ s1 with error_code := WASM_ERROR_PARSE_FAILED }, -1)
      else if o.load_ok = false then
        ({ s1 with module_present := true, error_code := WASM_ERROR_LOAD_FAILED }, -1)
      else if o.compile_ok = false then
        ({ s1 with module_present := true, error_code := WASM_ERROR_COMPILE_FAILED }, -1)
      else ({ s1 with module_present := true }, 0)

/-- `wasm_upload_packet_t` (wasm_service.h): `cmd:u8`, `sequence:u8`,
`chunk_size:u16`, `total_size:u32`, `data` up to 244 bytes. -/
structure WasmUploadPacket where
  cmd : Nat
  sequence : Nat
  chunk_size : Nat
  total_size : Nat
  data : List Nat
deriving DecidableEq

/-- `memcpy(buf + off, src, n)` on a byte buffer modelled as a function. -/
def memcpy_at (buf : Nat → Nat) (off : Nat) (src : List Nat) (n : Nat) : Nat → Nat :=
  fun i => if off ≤ i ∧ i < off + n then src.getD (i - off) 0 else buf i

/-- `{ .type = WASM_MSG_LOAD_MODULE }` (designated initializer zeroes the union). -/
def loadModuleMsg : WasmWorkMsg :=
  { type := .loadModule, function_name := [], arg_count := 0, args := [] }

/-- `{ .type = WASM_MSG_RESET }`. -/
def resetMsg : WasmWorkMsg :=
  { type := .reset, function_name := [], arg_count := 0, args := [] }

/-- The `WASM_CMD_CONTINUE_UPLOAD` case body of `wasm_upload_handler`
(wasm_service.c:530-593); the `WASM_CMD_START_UPLOAD` case falls through into
this code after (re)initializing the session. -/
def wasm_upload_continue (s : WasmState) (p : WasmUploadPacket) (len : Int) :
    WasmState × Int :=
  if s.status ≠ WASM_STATUS_RECEIVING then
    ({ s with error_code := WASM_ERROR_INVALID_PARAMS }, -1)
  else if p.sequence ≠ s.upload_sequence then
    ({ s with error_code := WASM_ERROR_INVALID_PARAMS, status := WASM_STATUS_ERROR }, -1)
  else if s.bytes_received + p.chunk_size > WASM_CODE_BUFFER_SIZE ∨
          s.bytes_received + p.chunk_size > s.total_expected then
    ({ s with error_code := WASM_ERROR_BUFFER_OVERFLOW, status := WASM_STATUS_ERROR }, -1)
  else
    let s1 := { s with
      code_buffer := memcpy_at s.code_buffer s.bytes_received p.data p.chunk_size,
      bytes_received := s.bytes_received + p.chunk_size,
      upload_sequence := (s.upload_sequence + 1) % 256 }
    if s1.total_expected ≤ s1.bytes_received then
      let s2 := { s1 with code_size := s1.bytes_received, status := WASM_STATUS_RECEIVED }
      let pr := k_msgq_put s2.work_queue loadModuleMsg
      if pr.2 = 0 then ({ s2 with work_queue := pr.1 }, len)
      else ({ s2 with work_queue := pr.1, status := WASM_STATUS_ERROR,
                      error_code := WASM_ERROR_LOAD_FAILED }, len)
    else (s1, len)

/-- `wasm_upload_handler` (wasm_service.c:492-619). `len` is the received packet
length (the handler rejects `len < 8`); `o` supplies the outcomes of the WASM3
calls reachable from the `WASM_CMD_END_UPLOAD` path. -/
def wasm_upload_handler (s : WasmState) (o : M3LoadOracle) (p : WasmUploadPacket)
    (len : Nat) : WasmState × Int :=
  if len < 8 then (s, -1)
  else if p.cmd = WASM_CMD_START_UPLOAD then
    if p.total_size > WASM_CODE_BUFFER_SIZE then
      ({ s with error_code := WASM_ERROR_BUFFER_OVERFLOW, status := WASM_STATUS_ERROR }, -1)
    else
      let s1 := reset_upload_state s
      let s2 := { s1 with total_expected := p.total_size,
                          status := WASM_STATUS_RECEIVING, upload_sequence := 0 }
      wasm_upload_continue s2 p len
  else if p.cmd = WASM_CMD_CONTINUE_UPLOAD then
    wasm_upload_continue s p len
  else if p.cmd = WASM_CMD_END_UPLOAD then
    if s.status = WASM_STATUS_RECEIVING then
      let s1 := { s with code_size := s.bytes_received, status := WASM_STATUS_RECEIVED }
      ((load_wasm_module s1 o).1, len)
    else (s, len)
  else if p.cmd = WASM_CMD_RESET then
    let pr := k_msgq_put s.work_queue resetMsg
    ({ s with work_queue := pr.1 }, 252)
  else
    ({ s with error_code := WASM_ERROR_INVALID_PARAMS }, -1)

/-- `wasm_execute_packet_t` (wasm_service.h): 32-byte NUL-padded name, `arg_count`,
4 int32 arguments. -/
structure WasmExecutePacket where
  function_name : List Nat
  arg_count : Nat
  args : List Int
deriving DecidableEq

/-- C `strnlen`: length of the string up to the first NUL, at most `maxlen`. -/
def strnlen (s : List Nat) (maxlen : Nat) : Nat :=
  ((s.take maxlen).takeWhile (fun b => b != 0)).length

/-- `strncpy(dst, src, WASM_FUNCTION_NAME_SIZE - 1)` followed by
`dst[WASM_FUNCTION_NAME_SIZE - 1] = 0`: the copied characters up to the first NUL
(at most 31), NUL-padded to the 32-byte array. -/
def copy_function_name (src : List Nat) : List Nat :=
  let copied := (src.take (WASM_FUNCTION_NAME_SIZE - 1)).takeWhile (fun b => b != 0)
  copied ++ List.replicate (WASM_FUNCTION_NAME_SIZE - copied.length) 0

/-- `wasm_execute_handler` (wasm_service.c:624-680). Returns
`sizeof(wasm_execute_packet_t) = 52` in every branch. -/
def wasm_execute_handler (s : WasmState) (p : WasmExecutePacket) : WasmState × Int :=
  let s0 := { s with last_result := zeroResult, last_result_valid := false }
  if s0.status ≠ WASM_STATUS_LOADED then
    let r := { zeroResult with status := WASM_STATUS_ERROR, error_code := WASM_ERROR_LOAD_FAILED }
    ({ s0 with last_result := r, last_result_valid := true }, 52)
  else if WASM_FUNCTION_NAME_SIZE ≤ strnlen p.function_name WASM_FUNCTION_NAME_SIZE then
    let r := { zeroResult with status := WASM_STATUS_ERROR, error_code := WASM_ERROR_INVALID_PARAMS }
    ({ s0 with last_result := r, last_result_valid := true }, 52)
  else
    let msg : WasmWorkMsg :=
      { type := .executeFunction, function_name := copy_function_name p.function_name,
        arg_count := p.arg_count,
        args := (List.range 4).map (fun i => if i < p.arg_count then p.args.getD i 0 else 0) }
    let pr := k_msgq_put s0.work_queue msg
    if pr.2 = 0 then
      ({ s0 with work_queue := pr.1, status := WASM_STATUS_EXECUTING }, 52)
    else
      let r := { zeroResult with status := WASM_STATUS_ERROR, error_code := WASM_ERROR_EXECUTION_FAILED }
      ({ s0 with work_queue := pr.1, status := WASM_STATUS_ERROR,
                 error_code := WASM_ERROR_EXECUTION_FAILED,
                 last_result := r, last_result_valid := true }, 52)

/-- Outcomes of the external WASM3 calls made by one execution
(`m3_FindFunction`, `m3_Call`/`m3_CallV`, `m3_GetRetCount`, `m3_GetResults`)
together with the two `k_uptime_get_32` readings. -/
structure M3ExecOracle where
  find_ok : Bool
  call_ok : Bool
  ret_count : Nat
  get_results_ok : Bool
  ret_val : Int
  start_time : Nat
  end_time : Nat
deriving DecidableEq

/-- `execute_wasm_function_internal` (wasm_service.c:319-414). -/
def execute_wasm_function_internal (s : WasmState) (o : M3ExecOracle)
    (function_name : List Nat) (arg_count : Nat) (args : List Int) : WasmState × Int :=
  if o.find_ok = false then
    let r := { s.last_result with status := WASM_STATUS_ERROR, error_code := WASM_ERROR_FUNCTION_NOT_FOUND }
    ({ s with last_result := r, last_result_valid := true, status := WASM_STATUS_LOADED }, -1)
  else if 4 < arg_count then
    let r := { s.last_result with status := WASM_STATUS_ERROR, error_code := WASM_ERROR_INVALID_PARAMS }
    ({ s with last_result := r, last_result_valid := true, status := WASM_STATUS_LOADED }, -1)
  else
    let result_value : Int :=
      if o.call_ok = true ∧ 0 < o.ret_count ∧ o.get_results_ok = true then o.ret_val else 0
    let execution_time_us := ((o.end_time - o.start_time) * 1000) % 4294967296
    if o.call_ok = true then
      let r := { s.last_result with
                 return_value := result_value,
                 execution_time_us := execution_time_us,
                 status := WASM_STATUS_COMPLETE,
                 error_code := WASM_ERROR_NONE }
      ({ s with last_result := r, last_result_valid := true,
                status := WASM_STATUS_LOADED }, 0)
    else
      let r := { s.last_result with
                 return_value := result_value,
                 execution_time_us := execution_time_us,
                 status := WASM_STATUS_ERROR }
      ({ s with last_result := r, error_code := WASM_ERROR_EXECUTION_FAILED,
                last_result_valid := true, status := WASM_STATUS_LOADED }, -1)

/-- One iteration of the worker loop `wasm_work_thread_entry`
(wasm_service.c:107-154): dequeue one message and dispatch on its tag; identity
when the queue is empty (the worker would block). -/
def wasm_work_thread_step (s : WasmState) (ol : M3LoadOracle) (oe : M3ExecOracle) :
    WasmState :=
  match k_msgq_get s.work_queue with
  | none => s
  | some (msg, rest) =>
    let s1 := { s with work_queue := rest }
    match msg.type with
    | .loadModule =>
      let lr := load_wasm_module s1 ol
      if lr.2 = 0 then
        { lr.1 with status := WASM_STATUS_LOADED, error_code := WASM_ERROR_NONE }
      else { lr.1 with status := WASM_STATUS_ERROR }
    | .executeFunction =>
      (execute_wasm_function_internal s1 oe msg.function_name msg.arg_count msg.args).1
    | .reset => reset_wasm_service_internal s1

/-! ### Concrete fixtures used by witnesses and counterexamples -/

/-- All external WASM3 calls succeed. -/
def defaultLoadOracle : M3LoadOracle :=
  { env_ok := true, runtime_ok := true, parse_ok := true, load_ok := true,
    compile_ok := true }

def defaultExecOracle : M3ExecOracle :=
  { find_ok := true, call_ok := true, ret_count := 1, get_results_ok := true,
    ret_val := 0, start_time := 0, end_time := 0 }

/-- A `Start` packet declaring one byte more than the code buffer holds. -/
def oversizedStartPacket : WasmUploadPacket :=
  { cmd := WASM_CMD_START_UPLOAD, sequence := 0, chunk_size := 0,
    total_size := 32 * 1024 + 1, data := [] }

/-- A session mid-transfer: Receiving, expecting 64 bytes, next sequence 0. -/
def receivingState : WasmState :=
  { initWasmState with status := WASM_STATUS_RECEIVING, total_expected := 64 }

/-- A `Continue` chunk with sequence 1 (while `next_sequence` is 0). -/
def mismatchChunkPacket : WasmUploadPacket :=
  { cmd := WASM_CMD_CONTINUE_UPLOAD, sequence := 1, chunk_size := 4,
    total_size := 0, data := [1, 2, 3, 4] }

/-- A well-formed execute request for function "a" with no arguments. -/
def sampleExecPacket : WasmExecutePacket :=
  { function_name := 0x61 :: List.replicate 31 0, arg_count := 0,
    args := [0, 0, 0, 0] }

/-! ### C1 — start-upload overflow -/

/-- C1 (amended): `start(total_size)` with `total_size` above the buffer capacity
returns the Overflow error (-1 with `error_code = BUFFER_OVERFLOW`); the counters
(`bytes_received`, `total_expected`, `upload_sequence`), `code_size` and the code
buffer are unchanged, but the session status moves to Error — it is not left
unchanged. -/
theorem wasm_start_overflow_rejected (s : WasmState) (o : M3LoadOracle)
    (p : WasmUploadPacket) (len : Nat) (hlen : ¬ len < 8)
    (hcmd : p.cmd = WASM_CMD_START_UPLOAD)
    (hsz : WASM_CODE_BUFFER_SIZE < p.total_size) :
    wasm_upload_handler s o p len =
      ({ s with error_code := WASM_ERROR_BUFFER_OVERFLOW, status := WASM_STATUS_ERROR }, -1) := by
  unfold wasm_upload_handler
  rw [if_neg hlen, if_pos hcmd, if_pos hsz]

/-- Witness for `wasm_start_overflow_rejected`: a 32769-byte start request on the
freshly initialized service. -/
theorem wasm_start_overflow_rejected_witness :
    wasm_upload_handler initWasmState defaultLoadOracle oversizedStartPacket 252 =
      ({ initWasmState with error_code := WASM_ERROR_BUFFER_OVERFLOW, status := WASM_STATUS_ERROR }, -1) :=
  wasm_start_overflow_rejected initWasmState defaultLoadOracle oversizedStartPacket 252
    (by decide) (by decide) (by decide)

/-- C1 as stated is false: the rejected start does not leave the session state
unchanged — from Idle it moves the status to Error. -/
theorem wasm_start_overflow_changes_state :
    (wasm_upload_handler initWasmState defaultLoadOracle oversizedStartPacket 252).1.status
        = WASM_STATUS_ERROR ∧
      initWasmState.status = WASM_STATUS_IDLE ∧ WASM_STATUS_ERROR ≠ WASM_STATUS_IDLE := by
  refine ⟨by decide, by decide, by decide⟩

/-! ### C2 — sequence mismatch -/

/-- C2 (amended): a chunk whose sequence differs from `next_sequence`, delivered
in the Receiving state, is rejected with -1 and `error_code = INVALID_PARAMS`
(the code has no distinct SequenceMismatch code; 0x07 is also used for the
invalid-state rejection), `received_bytes` is not mutated, and the session status
moves to Error. -/
theorem wasm_chunk_sequence_mismatch (s : WasmState) (o : M3LoadOracle)
    (p : WasmUploadPacket) (len : Nat) (hlen : ¬ len < 8)
    (hcmd : p.cmd = WASM_CMD_CONTINUE_UPLOAD)
    (hst : s.status = WASM_STATUS_RECEIVING)
    (hseq : p.sequence ≠ s.upload_sequence) :
    wasm_upload_handler s o p len =
      ({ s with error_code := WASM_ERROR_INVALID_PARAMS, status := WASM_STATUS_ERROR }, -1) := by
  unfold wasm_upload_handler
  rw [if_neg hlen]
  rw [if_neg (show ¬ p.cmd = WASM_CMD_START_UPLOAD by rw [hcmd]; decide), if_pos hcmd]
  unfold wasm_upload_continue
  rw [if_neg (not_not_intro hst), if_pos hseq]

/-- Witness for `wasm_chunk_sequence_mismatch`: sequence-1 chunk while the session
expects sequence 0. -/
theorem wasm_chunk_sequence_mismatch_witness :
    wasm_upload_handler receivingState defaultLoadOracle mismatchChunkPacket 252 =
      ({ receivingState with error_code := WASM_ERROR_INVALID_PARAMS, status := WASM_STATUS_ERROR }, -1) :=
  wasm_chunk_sequence_mismatch receivingState defaultLoadOracle mismatchChunkPacket 252
    (by decide) (by decide) (by decide) (by decide)

/-- C2 as stated is false in its error-code part: the concrete sequence-mismatch
run reports `WASM_ERROR_INVALID_PARAMS` (0x07) — the very code the handler also
reports for a chunk delivered outside the Receiving state — so no distinct
SequenceMismatch error is returned. -/
theorem wasm_chunk_sequence_mismatch_cex :
    (wasm_upload_handler receivingState defaultLoadOracle mismatchChunkPacket 252).1.error_code
        = WASM_ERROR_INVALID_PARAMS ∧
      (wasm_upload_handler initWasmState defaultLoadOracle mismatchChunkPacket 252).1.error_code
        = WASM_ERROR_INVALID_PARAMS := by
  refine ⟨by decide, by decide⟩

/-! ### C4 — counters invariant -/

/-- The invariant claimed for the transfer session:
`received_bytes ≤ expected_total ≤ buffer capacity`. -/
def wasm_counters_inv (s : WasmState) : Prop :=
  s.bytes_received ≤ s.total_expected ∧ s.total_expected ≤ WASM_CODE_BUFFER_SIZE

theorem wasm_upload_continue_inv (s : WasmState) (p : WasmUploadPacket) (len : Int)
    (h : wasm_counters_inv s) :
    wasm_counters_inv (wasm_upload_continue s p len).1 := by
  obtain ⟨h1, h2⟩ := h
  unfold wasm_upload_continue wasm_counters_inv
  split
  · exact ⟨h1, h2⟩
  split
  · exact ⟨h1, h2⟩
  split
  · exact ⟨h1, h2⟩
  rename_i hno
  rw [not_or] at hno
  obtain ⟨hc1, hc2⟩ := hno
  dsimp only
  split
  · split
    · exact ⟨by dsimp only; omega, by dsimp only; omega⟩
    · exact ⟨by dsimp only; omega, by dsimp only; omega⟩
  · exact ⟨by dsimp only; omega, by dsimp only; omega⟩

theorem ensure_wasm_runtime_counters (s : WasmState) (o : M3LoadOracle) :
    (ensure_wasm_runtime s o).1.bytes_received = s.bytes_received ∧
    (ensure_wasm_runtime s o).1.total_expected = s.total_expected := by
  unfold ensure_wasm_runtime
  split
  · exact ⟨rfl, rfl⟩
  split
  · exact ⟨rfl, rfl⟩
  split
  · exact ⟨rfl, rfl⟩
  · exact ⟨rfl, rfl⟩

theorem load_wasm_module_counters (s : WasmState) (o : M3LoadOracle) :
    (load_wasm_module s o).1.bytes_received = s.bytes_received ∧
    (load_wasm_module s o).1.total_expected = s.total_expected := by
  have he := ensure_wasm_runtime_counters s o
  unfold load_wasm_module
  dsimp only
  split
  · exact ⟨rfl, rfl⟩
  generalize her : ensure_wasm_runtime s o = er at he ⊢
  obtain ⟨he1, he2⟩ := he
  split
  · exact ⟨he1, he2⟩
  split
  · exact ⟨he1, he2⟩
  split
  · exact ⟨he1, he2⟩
  split
  · exact ⟨he1, he2⟩
  split
  · exact ⟨he1, he2⟩
  split
  · exact ⟨he1, he2⟩
  · exact ⟨he1, he2⟩

theorem wasm_upload_handler_inv (s : WasmState) (o : M3LoadOracle)
    (p : WasmUploadPacket) (len : Nat) (h : wasm_counters_inv s) :
    wasm_counters_inv (wasm_upload_handler s o p len).1 := by
  obtain ⟨h1, h2⟩ := h
  unfold wasm_upload_handler
  split
  · exact ⟨h1, h2⟩
  split
  · split
    · exact ⟨h1, h2⟩
    · apply wasm_upload_continue_inv
      refine ⟨by simp [reset_upload_state], by simp [reset_upload_state]; omega⟩
  split
  · exact wasm_upload_continue_inv s p len ⟨h1, h2⟩
  split
  · split
    · have hc := load_wasm_module_counters
        { s with code_size := s.bytes_received, status := WASM_STATUS_RECEIVED } o
      exact ⟨by rw [hc.1, hc.2]; exact h1, by rw [hc.2]; exact h2⟩
    · exact ⟨h1, h2⟩
  split
  · exact ⟨h1, h2⟩
  · exact ⟨h1, h2⟩

theorem reset_wasm_service_internal_inv (s : WasmState) :
    wasm_counters_inv (reset_wasm_service_internal s) :=
  ⟨Nat.le_refl 0, Nat.zero_le _⟩

/-- States reachable from the initial state by the transfer-session operations:
start/accept-chunk/end-upload/reset commands through the upload handler (any
packet, any runtime outcome), and the worker-side reset. -/
inductive WasmReachable : WasmState → Prop where
  | init : WasmReachable initWasmState
  | upload (s : WasmState) (o : M3LoadOracle) (p : WasmUploadPacket) (len : Nat) :
      WasmReachable s → WasmReachable (wasm_upload_handler s o p len).1
  | reset (s : WasmState) :
      WasmReachable s → WasmReachable (reset_wasm_service_internal s)

/-- C4: in every state reachable from the initial state by the transfer-session
operations, `received_bytes ≤ expected_total ≤ buffer capacity`. -/
theorem wasm_counters_invariant (s : WasmState) (h : WasmReachable s) :
    wasm_counters_inv s := by
  induction h with
  | init => exact ⟨Nat.le_refl 0, by decide⟩
  | upload s o p len _ ih => exact wasm_upload_handler_inv s o p len ih
  | reset s _ _ => exact reset_wasm_service_internal_inv s

/-- Witness for `wasm_counters_invariant` at the initial state. -/
theorem wasm_counters_invariant_witness : wasm_counters_inv initWasmState :=
  wasm_counters_invariant initWasmState WasmReachable.init

/-! ### C6 — work queue capacity -/

/-- C6: the work queue capacity is 4 and enqueue never blocks: from an empty
queue the first 4 puts succeed, the 5th fails leaving the queue unchanged, and
after the worker dequeues one item a further put succeeds. -/
theorem wasm_queue_capacity_scenario :
    WASM_MSGQ_MAX_MSGS = 4 ∧
    (k_msgq_put [] resetMsg).2 = 0 ∧
    (k_msgq_put (k_msgq_put [] resetMsg).1 resetMsg).2 = 0 ∧
    (k_msgq_put (k_msgq_put (k_msgq_put [] resetMsg).1 resetMsg).1 resetMsg).2 = 0 ∧
    (k_msgq_put (k_msgq_put (k_msgq_put (k_msgq_put [] resetMsg).1 resetMsg).1 resetMsg).1 resetMsg).2 = 0 ∧
    (k_msgq_put (k_msgq_put (k_msgq_put (k_msgq_put (k_msgq_put [] resetMsg).1 resetMsg).1 resetMsg).1 resetMsg).1 resetMsg).2 ≠ 0 ∧
    (k_msgq_put (k_msgq_put (k_msgq_put (k_msgq_put (k_msgq_put [] resetMsg).1 resetMsg).1 resetMsg).1 resetMsg).1 resetMsg).1
      = (k_msgq_put (k_msgq_put (k_msgq_put (k_msgq_put [] resetMsg).1 resetMsg).1 resetMsg).1 resetMsg).1 ∧
    ((k_msgq_get (k_msgq_put (k_msgq_put (k_msgq_put (k_msgq_put [] resetMsg).1 resetMsg).1 resetMsg).1 resetMsg).1).map
      (fun pr => (k_msgq_put pr.2 resetMsg).2)) = some 0 := by
  decide

/-! ### C7 — execute while not loaded -/

/-- C7: an Execute request arriving while the status is not Loaded is rejected:
the result slot reports `error_code = LOAD_FAILED` with status Error, and
`next_sequence`, `received_bytes`, the code buffer, the service status and the
work queue are all unmodified (nothing is enqueued). -/
theorem wasm_execute_not_loaded (s : WasmState) (p : WasmExecutePacket)
    (hst : s.status ≠ WASM_STATUS_LOADED) :
    (wasm_execute_handler s p).1.last_result.error_code = WASM_ERROR_LOAD_FAILED ∧
    (wasm_execute_handler s p).1.last_result.status = WASM_STATUS_ERROR ∧
    (wasm_execute_handler s p).1.last_result_valid = true ∧
    (wasm_execute_handler s p).1.upload_sequence = s.upload_sequence ∧
    (wasm_execute_handler s p).1.bytes_received = s.bytes_received ∧
    (wasm_execute_handler s p).1.code_buffer = s.code_buffer ∧
    (wasm_execute_handler s p).1.status = s.status ∧
    (wasm_execute_handler s p).1.work_queue = s.work_queue ∧
    (wasm_execute_handler s p).2 = 52 := by
  simp only [wasm_execute_handler]
  simp [hst]

/-- Witness for `wasm_execute_not_loaded`: Execute on the freshly initialized
(Idle, hence not Loaded) service. -/
theorem wasm_execute_not_loaded_witness :
    (wasm_execute_handler initWasmState sampleExecPacket).1.last_result.error_code = WASM_ERROR_LOAD_FAILED ∧
    (wasm_execute_handler initWasmState sampleExecPacket).1.last_result.status = WASM_STATUS_ERROR ∧
    (wasm_execute_handler initWasmState sampleExecPacket).1.last_result_valid = true ∧
    (wasm_execute_handler initWasmState sampleExecPacket).1.upload_sequence = initWasmState.upload_sequence ∧
    (wasm_execute_handler initWasmState sampleExecPacket).1.bytes_received = initWasmState.bytes_received ∧
    (wasm_execute_handler initWasmState sampleExecPacket).1.code_buffer = initWasmState.code_buffer ∧
    (wasm_execute_handler initWasmState sampleExecPacket).1.status = initWasmState.status ∧
    (wasm_execute_handler initWasmState sampleExecPacket).1.work_queue = initWasmState.work_queue ∧
    (wasm_execute_handler initWasmState sampleExecPacket).2 = 52 :=
  wasm_execute_not_loaded initWasmState sampleExecPacket (by decide)

/-! ### C8 — execution always returns to Loaded -/

/-- C8: for every state, runtime outcome (function found or not, call succeeded
or failed, any return count) and any argument count, the worker-side execution
leaves the service status Loaded — a failed call does not unload the module. -/
theorem wasm_execute_internal_status_loaded (s : WasmState) (o : M3ExecOracle)
    (nm : List Nat) (ac : Nat) (ag : List Int) :
    (execute_wasm_function_internal s o nm ac ag).1.status = WASM_STATUS_LOADED := by
  unfold execute_wasm_function_internal
  repeat' split
  all_goals rfl

/-! ### C9 — reset idempotence -/

/-- C9: the worker-side reset is idempotent — resetting twice yields exactly the
state of resetting once — the resulting status is Idle and the error code is
cleared (no error is reported). -/
theorem wasm_reset_idempotent (s : WasmState) :
    reset_wasm_service_internal (reset_wasm_service_internal s)
        = reset_wasm_service_internal s ∧
      (reset_wasm_service_internal s).status = WASM_STATUS_IDLE ∧
      (reset_wasm_service_internal s).error_code = WASM_ERROR_NONE :=
  ⟨rfl, rfl, rfl⟩

end Nrf53
